import Mathlib

/-!
Shallow embedding of the camera-capture scripts of
`pocketcalculator/fasttracktocleartracks` (Raspberry Pi image capture):
`capture_image.py`, `capture_image_adaptive.py`,
`capture_image_advanced_manual.py` and `read_exif_metadata.py`.

Real numbers of the Python source (brightness averages, pixel fractions,
gains) are modelled as rationals; file paths as strings; `None`-able
arguments as `Option`; exceptions as explicit `Option`/`Bool` fault inputs.
-/

namespace FastTrack

/-- Recommended settings dictionary produced by each branch of the
lighting ladder in `analyze_lighting_conditions`
(`capture_image_adaptive.py` lines 61-96): keys `exposure_mode`,
`iso_boost`, `brightness_compensation`. -/
structure Recommended where
  exposureMode : String
  isoBoost : ℚ
  brightnessCompensation : ℚ
deriving DecidableEq

/-- The threshold ladder of `analyze_lighting_conditions`
(`capture_image_adaptive.py` lines 61-96, identically
`capture_image_advanced_manual.py` lines 59-94): from the mean preview
brightness it picks the condition name, the human-readable description and
the recommended-settings triple, all chosen together by one
`if`/`elif`/`else` chain. -/
def lightingLadder (brightness : ℚ) : String × String × Recommended :=
  if brightness < 50 then
    ("very_dark", "Night/Very Dark", ⟨"long", 2.0, 0.3⟩)
  else if brightness < 100 then
    ("dark", "Dawn/Dusk/Overcast", ⟨"normal", 1.5, 0.2⟩)
  else if brightness > 180 then
    ("very_bright", "Direct Sunlight", ⟨"short", 0.8, -0.2⟩)
  else
    ("normal", "Good Lighting", ⟨"normal", 1.0, 0.0⟩)

/-- Condition assigned by the lighting classifier (first component of the
ladder). -/
def classifyCondition (brightness : ℚ) : String :=
  (lightingLadder brightness).1

/-- Statistics of the preview frame used by `analyze_lighting_conditions`
(`capture_image_adaptive.py` lines 43-58): mean brightness over the
channels, and the dark/bright histogram fractions (bins 0-84 and 170-255
divided by the pixel count). -/
structure PreviewStats where
  brightness : ℚ
  darkFrac : ℚ
  brightFrac : ℚ
deriving DecidableEq

/-- Lighting assessment dictionary returned by
`analyze_lighting_conditions` (`capture_image_adaptive.py` lines 98-105
and, on exception, lines 112-123). -/
structure LightingInfo where
  condition : String
  description : String
  brightness : ℚ
  darkPixelsPercent : ℚ
  brightPixelsPercent : ℚ
  recommended : Recommended
deriving DecidableEq

/-- The whole of `analyze_lighting_conditions`
(`capture_image_adaptive.py` lines 36-123).  `preview = some st` is a run
in which sampling and classification succeed with statistics `st`;
`preview = none` is a run in which any exception was raised inside the
`try` block, in which case the `except` branch (lines 109-123) returns
the fixed neutral assessment.  The function is total: it never propagates
a failure to its caller. -/
def analyzeLightingConditions (preview : Option PreviewStats) : LightingInfo :=
  match preview with
  | Option.some st =>
    { condition := (lightingLadder st.brightness).1
      description := (lightingLadder st.brightness).2.1
      brightness := st.brightness
      darkPixelsPercent := st.darkFrac * 100
      brightPixelsPercent := st.brightFrac * 100
      recommended := (lightingLadder st.brightness).2.2 }
  | Option.none =>
    { condition := "unknown"
      description := "Auto"
      brightness := 128
      darkPixelsPercent := 0
      brightPixelsPercent := 0
      recommended := { exposureMode := "normal", isoBoost := 1.0, brightnessCompensation := 0.0 } }

/-- Bracket score of one candidate frame (`capture_image_adaptive.py`
line 433): `score = 100 - abs(brightness - 128) - clipped_highlights*100 -
clipped_shadows*100`. -/
def bracketScore (brightness clippedHighlights clippedShadows : ℚ) : ℚ :=
  100 - |brightness - 128| - clippedHighlights * 100 - clippedShadows * 100

/-- Byte marker prepended to the UserComment payload
(`capture_image_adaptive.py` line 214): the eight bytes of
`b"JPEG\x00\x00\x00\x00"`. -/
def userCommentMarker : List Nat := [74, 80, 69, 71, 0, 0, 0, 0]

/-- Construction of the EXIF UserComment value
(`capture_image_adaptive.py` line 214): the 8-byte marker followed by the
UTF-8 bytes of the compact JSON encoding of the metadata record; the
payload bytes are abstracted as an arbitrary byte list. -/
def embedUserComment (payload : List Nat) : List Nat :=
  userCommentMarker ++ payload

/-- Reader side (`read_exif_metadata.py` lines 74-76): if the UserComment
starts with the marker, the bytes after the first eight are the JSON
payload; otherwise no embedded metadata is recognised. -/
def extractUserComment (userComment : List Nat) : Option (List Nat) :=
  if userComment.take 8 = userCommentMarker then
    Option.some (userComment.drop 8)
  else
    Option.none

/-- C1: for every preview brightness value b, the lighting classifier
assigns condition very_dark iff b<50, dark iff 50≤b<100, normal iff
100≤b≤180, and very_bright iff b>180; the boundary values 50, 100 and 180
fall into dark, normal and normal respectively. -/
theorem lighting_classification_thresholds :
    (∀ b : ℚ,
      (classifyCondition b = "very_dark" ↔ b < 50) ∧
      (classifyCondition b = "dark" ↔ 50 ≤ b ∧ b < 100) ∧
      (classifyCondition b = "normal" ↔ 100 ≤ b ∧ b ≤ 180) ∧
      (classifyCondition b = "very_bright" ↔ 180 < b)) ∧
    classifyCondition 50 = "dark" ∧
    classifyCondition 100 = "normal" ∧
    classifyCondition 180 = "normal" := by
  refine ⟨fun b => ?_, by decide, by decide, by decide⟩
  unfold classifyCondition lightingLadder
  split_ifs with h1 h2 h3 <;>
    refine ⟨?_, ?_, ?_, ?_⟩ <;> simp_all <;> intros <;> linarith

/-- C3: the bracket score is the deterministic function
score(b, ch, cs) = 100 − |b−128| − 100·ch − 100·cs; score(128,0,0) = 100
is the maximum over nonnegative clip fractions, and the score strictly
decreases as |b−128| grows or as either clip fraction grows. -/
theorem bracket_score_properties :
    bracketScore 128 0 0 = 100 ∧
    (∀ b ch cs : ℚ, 0 ≤ ch → 0 ≤ cs → bracketScore b ch cs ≤ 100) ∧
    (∀ b1 b2 ch cs : ℚ, |b1 - 128| < |b2 - 128| →
      bracketScore b2 ch cs < bracketScore b1 ch cs) ∧
    (∀ b ch1 ch2 cs : ℚ, ch1 < ch2 →
      bracketScore b ch2 cs < bracketScore b ch1 cs) ∧
    (∀ b ch cs1 cs2 : ℚ, cs1 < cs2 →
      bracketScore b ch cs2 < bracketScore b ch cs1) := by
  refine ⟨by norm_num [bracketScore], ?_, ?_, ?_, ?_⟩
  · intro b ch cs hch hcs
    have hb : 0 ≤ |b - 128| := abs_nonneg _
    unfold bracketScore
    linarith
  · intro b1 b2 ch cs h
    unfold bracketScore
    linarith
  · intro b ch1 ch2 cs h
    unfold bracketScore
    linarith
  · intro b ch cs1 cs2 h
    unfold bracketScore
    linarith

/-- Witness for C3 at concrete inputs: brightness 130 scores below
brightness 128, each clip fraction strictly lowers the score, and a
clean frame at brightness 100 stays at or below the maximum 100. -/
theorem bracket_score_properties_witness :
    (0:ℚ) ≤ 0 ∧
    bracketScore 130 0 0 < bracketScore 128 0 0 ∧
    bracketScore 128 (1/2) 0 < bracketScore 128 0 0 ∧
    bracketScore 128 0 (1/2) < bracketScore 128 0 0 ∧
    bracketScore 100 0 0 ≤ 100 :=
  ⟨le_refl 0,
   bracket_score_properties.2.2.1 128 130 0 0 (by norm_num),
   bracket_score_properties.2.2.2.1 128 0 (1/2) 0 (by norm_num),
   bracket_score_properties.2.2.2.2 128 0 0 (1/2) (by norm_num),
   bracket_score_properties.2.1 100 0 0 (by norm_num) (by norm_num)⟩

/-- C6: the UserComment marker is eight bytes long, and for every
metadata payload, embedding (marker ++ UTF-8 JSON bytes) followed by the
reader's extraction (strip the first eight bytes after checking the
marker) returns the payload byte-identically; the JSON encode/parse pair
around it belongs to the external `json` library. -/
theorem exif_usercomment_roundtrip :
    userCommentMarker.length = 8 ∧
    ∀ payload : List Nat,
      extractUserComment (embedUserComment payload) = Option.some payload := by
  refine ⟨by decide, fun payload => ?_⟩
  rfl

/-- The three exposure-compensation offsets of the bracketing loop
(`capture_image_adaptive.py` line 405): `exposures = [-1.0, 0.0, 1.0]`. -/
def bracketExposures : List ℚ := [-1, 0, 1]

/-- Selection loop of the bracketing branch
(`capture_image_adaptive.py` lines 406-440) over the per-candidate
scores: the running maximum `best_score` starts at the sentinel `-1`
(line 407), and a candidate becomes the new best only on strict
`score > best_score` (line 435); `best` carries the index of the current
winner (its bracket file path in the source), `i` the index of the next
candidate.  A candidate whose analysis raises performs no comparison;
the list holds the scores of the analysed candidates. -/
def bracketLoop : List ℚ → Nat → ℚ → Option Nat → Option Nat
  | [], _, _, best => best
  | s :: rest, i, bestScore, best =>
    if bestScore < s then
      bracketLoop rest (i + 1) s (Option.some i)
    else
      bracketLoop rest (i + 1) bestScore best

/-- Index of the winning bracket candidate chosen by the loop, starting
from `best_score = -1` and `best_filepath = None`
(`capture_image_adaptive.py` lines 406-407). -/
def bracketSelect (scores : List ℚ) : Option Nat :=
  bracketLoop scores 0 (-1) Option.none

/-- When every remaining score is at most the running maximum, the loop
never updates its winner. -/
theorem bracketLoop_of_all_le (scores : List ℚ) :
    ∀ i b best, (∀ s ∈ scores, s ≤ b) →
      bracketLoop scores i b best = best := by
  induction scores with
  | nil => intro i b best _; rfl
  | cons s rest ih =>
    intro i b best h
    have hs : s ≤ b := h s (List.mem_cons_self s rest)
    have hrest : ∀ t ∈ rest, t ≤ b := fun t ht => h t (List.mem_cons_of_mem s ht)
    unfold bracketLoop
    rw [if_neg (not_lt.mpr hs)]
    exact ih (i + 1) b best hrest

/-- Invariant of the selection loop: as soon as some remaining score
strictly exceeds the running maximum, the loop returns the index of the
first candidate attaining the maximal remaining score, and that score
exceeds the running maximum it started from. -/
theorem bracketLoop_first_max (scores : List ℚ) :
    ∀ i b best, (∃ s ∈ scores, b < s) →
      ∃ j, j < scores.length ∧
        bracketLoop scores i b best = Option.some (i + j) ∧
        (∀ k, k < scores.length → scores.getD k 0 ≤ scores.getD j 0) ∧
        (∀ k, k < j → scores.getD k 0 < scores.getD j 0) ∧
        b < scores.getD j 0 := by
  induction scores with
  | nil =>
    intro i b best h
    obtain ⟨s, hs, _⟩ := h
    exact absurd hs (List.not_mem_nil s)
  | cons s rest ih =>
    intro i b best h
    by_cases hbs : b < s
    · by_cases h2 : ∃ t ∈ rest, s < t
      · obtain ⟨j, hjlen, hloop, hmax, hstrict, hgt⟩ := ih (i + 1) s (Option.some i) h2
        refine ⟨j + 1, by simp [hjlen], ?_, ?_, ?_, ?_⟩
        · unfold bracketLoop
          rw [if_pos hbs, hloop]
          congr 1
          omega
        · intro k hk
          cases k with
          | zero => simpa using le_of_lt hgt
          | succ k =>
            have hk : k < rest.length := by simpa using hk
            simpa using hmax k hk
        · intro k hk
          cases k with
          | zero => simpa using hgt
          | succ k =>
            have hk : k < j := by omega
            simpa using hstrict k hk
        · simpa using lt_trans hbs hgt
      · push_neg at h2
        refine ⟨0, by simp, ?_, ?_, ?_, ?_⟩
        · unfold bracketLoop
          rw [if_pos hbs]
          rw [bracketLoop_of_all_le rest (i + 1) s (Option.some i) h2]
          simp
        · intro k hk
          cases k with
          | zero => simp
          | succ k =>
            have hk : k < rest.length := by simpa using hk
            have hmem : rest.getD k 0 ∈ rest := by
              rw [List.getD_eq_getElem rest 0 hk]
              exact List.getElem_mem hk
            simpa using h2 _ hmem
        · intro k hk; omega
        · simpa using hbs
    · have h2 : ∃ t ∈ rest, b < t := by
        obtain ⟨t, ht, hbt⟩ := h
        rcases List.mem_cons.mp ht with rfl | htr
        · exact absurd hbt hbs
        · exact ⟨t, htr, hbt⟩
      obtain ⟨j, hjlen, hloop, hmax, hstrict, hgt⟩ := ih (i + 1) b best h2
      have hs : s ≤ b := not_lt.mp hbs
      refine ⟨j + 1, by simp [hjlen], ?_, ?_, ?_, ?_⟩
      · unfold bracketLoop
        rw [if_neg hbs, hloop]
        congr 1
        omega
      · intro k hk
        cases k with
        | zero => simpa using le_of_lt (lt_of_le_of_lt hs hgt)
        | succ k =>
          have hk : k < rest.length := by simpa using hk
          simpa using hmax k hk
      · intro k hk
        cases k with
        | zero => simpa using lt_of_le_of_lt hs hgt
        | succ k =>
          have hk : k < j := by omega
          simpa using hstrict k hk
      · simpa using hgt

/-- Counterexample to C4 as stated: three uniformly black candidate
frames (brightness 0, all pixels clipped shadows) each score
100 − 128 − 100 = −128 ≤ −1, so no candidate's score ever exceeds the
sentinel `best_score = -1` and no candidate is selected at all — the
first maximal candidate is not chosen. -/
theorem bracket_select_sentinel_counterexample :
    bracketScore 0 0 1 = -128 ∧
    bracketSelect [bracketScore 0 0 1, bracketScore 0 0 1, bracketScore 0 0 1]
      = Option.none := by
  have hsc : bracketScore 0 0 1 = -128 := by
    norm_num [bracketScore, abs_of_nonpos]
  refine ⟨hsc, ?_⟩
  rw [hsc]
  decide

/-- C4 (amended): bracket selection evaluates the candidates at the
fixed offsets −1, 0, +1 in order; for scores [90, 95, 95] the candidate
at offset 0 (index 1) wins, not the one at +1; and whenever some
candidate scores above the sentinel −1 the selected candidate is the
first one attaining the maximal score, every earlier candidate scoring
strictly less (a later equal score never replaces it); when every score
is at most −1 no candidate is selected. -/
theorem bracket_select_first_max :
    bracketExposures = [-1, 0, 1] ∧
    bracketSelect [90, 95, 95] = Option.some 1 ∧
    (∀ scores : List ℚ, (∃ s ∈ scores, -1 < s) →
      ∃ j, j < scores.length ∧
        bracketSelect scores = Option.some j ∧
        (∀ k, k < scores.length → scores.getD k 0 ≤ scores.getD j 0) ∧
        (∀ k, k < j → scores.getD k 0 < scores.getD j 0)) ∧
    (∀ scores : List ℚ, (∀ s ∈ scores, s ≤ -1) →
      bracketSelect scores = Option.none) := by
  refine ⟨rfl, by decide, ?_, ?_⟩
  · intro scores h
    obtain ⟨j, hjlen, hloop, hmax, hstrict, _⟩ :=
      bracketLoop_first_max scores 0 (-1) Option.none h
    exact ⟨j, hjlen, by simpa [bracketSelect] using hloop, hmax, hstrict⟩
  · intro scores h
    exact bracketLoop_of_all_le scores 0 (-1) Option.none h

/-- Witness for C4 at scores [90, 95, 95]: some score exceeds the
sentinel, so a first-maximal winner exists. -/
theorem bracket_select_first_max_witness :
    (∃ s ∈ ([90, 95, 95] : List ℚ), -1 < s) ∧
    (∃ j, j < ([90, 95, 95] : List ℚ).length ∧
      bracketSelect [90, 95, 95] = Option.some j ∧
      (∀ k, k < ([90, 95, 95] : List ℚ).length →
        ([90, 95, 95] : List ℚ).getD k 0 ≤ ([90, 95, 95] : List ℚ).getD j 0) ∧
      (∀ k, k < j →
        ([90, 95, 95] : List ℚ).getD k 0 < ([90, 95, 95] : List ℚ).getD j 0)) :=
  ⟨⟨90, by norm_num⟩,
   bracket_select_first_max.2.2.1 [90, 95, 95] ⟨90, by norm_num⟩⟩

/-- Canonical output file name (`capture_image_adaptive.py` line 319):
`captured_<timestamp>.jpg`. -/
def canonicalFileName (ts : String) : String :=
  "captured_" ++ ts ++ ".jpg"

/-- Temporary bracket candidate file name
(`capture_image_adaptive.py` line 410): `captured_<timestamp>_bracket_<i>.jpg`. -/
def bracketFileName (ts : String) (i : Nat) : String :=
  "captured_" ++ ts ++ "_bracket_" ++ toString i ++ ".jpg"

/-- Effect of `shutil.copy2(src, dst)` on the set of existing paths
(`capture_image_adaptive.py` line 445), the directory modelled as the
list of paths present: the destination comes into existence and every
path that existed — the source included — still exists; file contents
are not modelled. -/
def copy2 (fs : List String) (_src dst : String) : List String :=
  dst :: fs

/-- Effect of the cleanup step for one bracket file
(`capture_image_adaptive.py` lines 452-453): if the path exists it is
unlinked, otherwise nothing happens. -/
def unlinkIfExists (fs : List String) (p : String) : List String :=
  if p ∈ fs then fs.filter (fun q => q ≠ p) else fs

/-- The copy-winner-then-clean-up block of the bracketing branch
(`capture_image_adaptive.py` lines 443-453): when a best candidate was
selected, its file is copied to the canonical output path and then each
of the three bracket temporaries (`for i in range(len(exposures))`) is
deleted if present; when no candidate was selected nothing happens. -/
def bracketFinalize (fs : List String) (ts : String) (best : Option String) : List String :=
  match best with
  | Option.none => fs
  | Option.some bestPath =>
    (List.range 3).foldl
      (fun acc i => unlinkIfExists acc (bracketFileName ts i))
      (copy2 fs bestPath (canonicalFileName ts))

/-- The canonical output name and the bracket temporary names never
collide: their lengths differ. -/
theorem canonical_ne_bracketFileName (ts : String) (i : Nat) (hi : i < 3) :
    canonicalFileName ts ≠ bracketFileName ts i := by
  intro he
  have hlen := congrArg String.length he
  rw [canonicalFileName, bracketFileName] at hlen
  simp only [String.length_append] at hlen
  have hts : (toString i).length = 1 := by interval_cases i <;> rfl
  have e1 : ("captured_" : String).length = 9 := rfl
  have e2 : (".jpg" : String).length = 4 := rfl
  have e3 : ("_bracket_" : String).length = 9 := rfl
  rw [hts, e1, e2, e3] at hlen
  omega

/-- After unlinking a path it no longer exists. -/
theorem not_mem_unlinkIfExists (fs : List String) (p : String) :
    p ∉ unlinkIfExists fs p := by
  unfold unlinkIfExists
  split_ifs with h
  · intro hin
    have hne := (List.mem_filter.mp hin).2
    simp at hne
  · exact h

/-- Unlinking never creates a path. -/
theorem not_mem_unlinkIfExists_of_not_mem (fs : List String) (p q : String)
    (h : q ∉ fs) : q ∉ unlinkIfExists fs p := by
  unfold unlinkIfExists
  split_ifs with hp
  · intro hin
    exact h (List.mem_filter.mp hin).1
  · exact h

/-- Unlinking one path leaves every other path untouched. -/
theorem mem_unlinkIfExists_of_ne (fs : List String) (p q : String)
    (h : q ≠ p) : q ∈ unlinkIfExists fs p ↔ q ∈ fs := by
  unfold unlinkIfExists
  split_ifs with hp
  · simp [List.mem_filter, h]
  · exact Iff.rfl

/-- C5: whenever bracketing selects a winning candidate (index w of the
three temporaries), the winning temporary is copied — not moved: the
copy step keeps every existing path, the source included, and only adds
the canonical output — and afterwards all three bracket temporaries,
the winner included, are gone while the canonical output file exists. -/
theorem bracket_winner_copied_and_temps_deleted (ts : String) (fs : List String)
    (w : Nat) (_hw : w < 3) :
    (∀ x, x ∈ copy2 fs (bracketFileName ts w) (canonicalFileName ts) ↔
      (x = canonicalFileName ts ∨ x ∈ fs)) ∧
    canonicalFileName ts ∈ bracketFinalize fs ts (Option.some (bracketFileName ts w)) ∧
    (∀ i, i < 3 →
      bracketFileName ts i ∉ bracketFinalize fs ts (Option.some (bracketFileName ts w))) := by
  have hfin : bracketFinalize fs ts (Option.some (bracketFileName ts w)) =
      unlinkIfExists (unlinkIfExists (unlinkIfExists
        (canonicalFileName ts :: fs) (bracketFileName ts 0))
        (bracketFileName ts 1)) (bracketFileName ts 2) := rfl
  refine ⟨fun x => by simp [copy2], ?_, ?_⟩
  · rw [hfin]
    rw [mem_unlinkIfExists_of_ne _ _ _ (canonical_ne_bracketFileName ts 2 (by norm_num))]
    rw [mem_unlinkIfExists_of_ne _ _ _ (canonical_ne_bracketFileName ts 1 (by norm_num))]
    rw [mem_unlinkIfExists_of_ne _ _ _ (canonical_ne_bracketFileName ts 0 (by norm_num))]
    exact List.mem_cons_self _ _
  · intro i hi
    rw [hfin]
    interval_cases i
    · exact not_mem_unlinkIfExists_of_not_mem _ _ _
        (not_mem_unlinkIfExists_of_not_mem _ _ _
          (not_mem_unlinkIfExists _ _))
    · exact not_mem_unlinkIfExists_of_not_mem _ _ _
        (not_mem_unlinkIfExists _ _)
    · exact not_mem_unlinkIfExists _ _

/-- Witness for C5: for timestamp 20240101_120000, with exactly the three
bracket temporaries on disk and candidate 1 the winner, after the
copy-and-clean-up step the canonical output exists and the winning
temporary is gone. -/
theorem bracket_winner_copied_and_temps_deleted_witness :
    (1 : Nat) < 3 ∧
    canonicalFileName "20240101_120000" ∈
      bracketFinalize
        [bracketFileName "20240101_120000" 0, bracketFileName "20240101_120000" 1,
         bracketFileName "20240101_120000" 2]
        "20240101_120000" (Option.some (bracketFileName "20240101_120000" 1)) ∧
    bracketFileName "20240101_120000" 1 ∉
      bracketFinalize
        [bracketFileName "20240101_120000" 0, bracketFileName "20240101_120000" 1,
         bracketFileName "20240101_120000" 2]
        "20240101_120000" (Option.some (bracketFileName "20240101_120000" 1)) :=
  ⟨by norm_num,
   (bracket_winner_copied_and_temps_deleted "20240101_120000"
     [bracketFileName "20240101_120000" 0, bracketFileName "20240101_120000" 1,
      bracketFileName "20240101_120000" 2] 1 (by norm_num)).2.1,
   (bracket_winner_copied_and_temps_deleted "20240101_120000"
     [bracketFileName "20240101_120000" 0, bracketFileName "20240101_120000" 1,
      bracketFileName "20240101_120000" 2] 1 (by norm_num)).2.2 1 (by norm_num)⟩

/-- Accumulated camera control state: each libcamera control that the
scripts ever set, `Option.none` meaning the control was never set by a
`set_controls` call. -/
structure Ctrl where
  aeEnable : Option Bool
  exposureValue : Option ℚ
  exposureTime : Option Nat
  analogueGain : Option ℚ
  awbEnable : Option Bool
  colourGains : Option (ℚ × ℚ)
deriving DecidableEq

/-- Control state with nothing set. -/
def emptyCtrl : Ctrl :=
  ⟨Option.none, Option.none, Option.none, Option.none, Option.none, Option.none⟩

/-- A later value overrides an earlier one when present. -/
def ov {α : Type} (new old : Option α) : Option α :=
  match new with
  | Option.some a => Option.some a
  | Option.none => old

/-- Semantics of `picam2.set_controls(d)` applied on top of the controls
set so far: every control present in the dictionary `d` overrides the
accumulated state, every other control is left as it was. -/
def setControls (s d : Ctrl) : Ctrl :=
  ⟨ov d.aeEnable s.aeEnable, ov d.exposureValue s.exposureValue,
   ov d.exposureTime s.exposureTime, ov d.analogueGain s.analogueGain,
   ov d.awbEnable s.awbEnable, ov d.colourGains s.colourGains⟩

/-- Python truthiness of an optional integer argument: `None` and `0`
are falsy, every other value truthy. -/
def truthyNat : Option Nat → Bool
  | Option.none => false
  | Option.some n => if n = 0 then false else true

/-- Python `iso or 400` (`capture_image_adaptive.py` line 355): the iso
argument when truthy, else the default 400. -/
def pyOr (iso : Option Nat) (dflt : Nat) : Nat :=
  match iso with
  | Option.none => dflt
  | Option.some n => if n = 0 then dflt else n

/-- Python `int()` applied to the nonnegative rationals arising here
(`base_iso * iso_multiplier` with positive factors): truncation, written
on the normalised numerator and denominator. -/
def pyInt (q : ℚ) : ℤ :=
  q.num / (q.den : ℤ)

/-- Control dictionary built by `apply_adaptive_settings`
(`capture_image_adaptive.py` lines 125-168): auto-exposure on, exposure
compensation from the recommendation, and — when the base ISO is
truthy — analog gain `min(1600, int(base_iso * iso_boost)) / 100`.
The commented-out exposure-mode block and the defensive `except` branch
(unreachable for these dictionary operations) set nothing else. -/
def applyAdaptiveSettings (rec : Recommended) (baseIso : Option Nat) : Ctrl :=
  { emptyCtrl with
    aeEnable := Option.some true
    exposureValue := Option.some rec.brightnessCompensation
    analogueGain :=
      if truthyNat baseIso then
        Option.some (((min 1600 (pyInt ((pyOr baseIso 0 : ℚ) * rec.isoBoost)) : ℤ) : ℚ) / 100)
      else
        Option.none }

/-- White-balance gain table (`capture_image_adaptive.py` lines 379-384). -/
def wbGains : String → Option (ℚ × ℚ)
  | "daylight" => Option.some (1.5, 2.5)
  | "cloudy" => Option.some (1.8, 2.2)
  | "tungsten" => Option.some (2.5, 1.2)
  | "fluorescent" => Option.some (2.0, 1.8)
  | _ => Option.none

/-- Manual control dictionary (`capture_image_adaptive.py` lines
365-389): a truthy exposure time sets `ExposureTime` and disables
auto-exposure; a truthy ISO sets the analog gain only when adaptive
exposure is disabled (`if iso and not adaptive_exposure`); a truthy
white balance other than auto disables auto-white-balance and, when the
mode is in the gain table, sets the colour gains. -/
def manualControls (exposureTime iso : Option Nat) (adaptiveExposure : Bool)
    (whiteBalance : Option String) : Ctrl :=
  let c1 :=
    if truthyNat exposureTime then
      { emptyCtrl with exposureTime := exposureTime, aeEnable := Option.some false }
    else emptyCtrl
  let c2 :=
    if truthyNat iso && !adaptiveExposure then
      { c1 with analogueGain := Option.some ((pyOr iso 0 : ℚ) / 100) }
    else c1
  match whiteBalance with
  | Option.none => c2
  | Option.some w =>
    if w = "" then c2
    else if w = "auto" then c2
    else
      let c3 := { c2 with awbEnable := Option.some false }
      match wbGains w with
      | Option.some g => { c3 with colourGains := Option.some g }
      | Option.none => c3

/-- The control state applied by the time of capture in
`capture_image` of `capture_image_adaptive.py`: the adaptive dictionary
(lines 349-363, with `base_iso = iso or 400`) when adaptive exposure is
enabled, then the manual dictionary (lines 365-391) on top of it.  The
preview brightness drives the recommendation ladder. -/
def finalAppliedControls (adaptiveExposure : Bool) (previewBrightness : ℚ)
    (exposureTime iso : Option Nat) (whiteBalance : Option String) : Ctrl :=
  let afterAdaptive :=
    if adaptiveExposure then
      setControls emptyCtrl
        (applyAdaptiveSettings (lightingLadder previewBrightness).2.2
          (Option.some (pyOr iso 400)))
    else emptyCtrl
  setControls afterAdaptive (manualControls exposureTime iso adaptiveExposure whiteBalance)

/-- An overriding value wins. -/
theorem ov_some {α : Type} (a : α) (old : Option α) :
    ov (Option.some a) old = Option.some a := rfl

/-- A missing overriding value keeps the old one. -/
theorem ov_none {α : Type} (old : Option α) : ov Option.none old = old := rfl

/-- Overriding nothing gives back the override itself. -/
theorem ov_none_right {α : Type} (x : Option α) : ov x Option.none = x := by
  cases x <;> rfl

/-- Field values of the manual-control dictionary, by case analysis on
the guards of `capture_image_adaptive.py` lines 365-389: the manual
exposure time and auto-exposure-off entries are present exactly when the
exposure time is truthy, and the manual analog gain is present exactly
when the ISO is truthy and adaptive exposure is disabled. -/
theorem manualControls_fields (et iso : Option Nat) (a : Bool) (wb : Option String) :
    (manualControls et iso a wb).exposureTime
        = (if truthyNat et then et else Option.none) ∧
    (manualControls et iso a wb).aeEnable
        = (if truthyNat et then Option.some false else Option.none) ∧
    (manualControls et iso a wb).analogueGain
        = (if truthyNat iso && !a then Option.some ((pyOr iso 0 : ℚ) / 100)
           else Option.none) := by
  cases wb with
  | none =>
    simp only [manualControls]
    split_ifs <;> simp_all [emptyCtrl]
  | some w =>
    simp only [manualControls]
    by_cases h1 : w = ""
    · simp only [if_pos h1]
      split_ifs <;> simp_all [emptyCtrl]
    · simp only [if_neg h1]
      by_cases h2 : w = "auto"
      · simp only [if_pos h2]
        split_ifs <;> simp_all [emptyCtrl]
      · simp only [if_neg h2]
        cases hgw : wbGains w <;>
          simp only [hgw] <;> split_ifs <;> simp_all [emptyCtrl]

/-- White-balance field values of the manual-control dictionary when the
mode is in the gain table (`capture_image_adaptive.py` lines 376-388):
auto-white-balance is disabled and the table gains are set. -/
theorem manualControls_wb_fields (et iso : Option Nat) (a : Bool) (w : String)
    (g : ℚ × ℚ) (hg : wbGains w = Option.some g) :
    (manualControls et iso a (Option.some w)).awbEnable = Option.some false ∧
    (manualControls et iso a (Option.some w)).colourGains = Option.some g := by
  have hwempty : ¬w = "" := by
    intro he; subst he; simp [wbGains] at hg
  have hwauto : ¬w = "auto" := by
    intro he; subst he; simp [wbGains] at hg
  simp only [manualControls, if_neg hwempty, if_neg hwauto, hg]
  exact ⟨trivial, trivial⟩

/-- Counterexample to C2 as stated: with adaptive exposure enabled, a
very dark preview (brightness 40, iso boost 2.0) and manual ISO 800, the
final applied analog gain is the adaptive `min(1600, int(800*2.0))/100 =
16.0`, not the manual `800/100 = 8.0`: the manual ISO does not take
precedence over the adaptive analog gain, because
`capture_image_adaptive.py` line 372 applies the manual ISO only when
adaptive exposure is disabled. -/
theorem manual_iso_not_applied_when_adaptive :
    (finalAppliedControls true 40 Option.none (Option.some 800) Option.none).analogueGain
      = Option.some 16 ∧
    ((800 : ℚ) / 100) ≠ (16 : ℚ) := by
  constructor
  · have hman := (manualControls_fields Option.none (Option.some 800) true Option.none).2.2
    have hlad : (lightingLadder 40).2.2.isoBoost = 2 := by
      norm_num [lightingLadder]
    simp only [finalAppliedControls, setControls, if_true]
    rw [hman]
    simp only [Bool.not_true, Bool.and_false, Bool.false_eq_true, if_false, ov_none]
    simp only [applyAdaptiveSettings, emptyCtrl, truthyNat, pyOr]
    norm_num [ov, hlad]
    norm_num [pyInt]
  · norm_num

/-- C2 (amended): a nonzero manual exposure time and a recognised manual
white-balance mode always override the adaptive recommendations in the
final applied control set — the exposure time is applied with
auto-exposure disabled, the white balance with auto-white-balance
disabled — but a manual ISO sets the analog gain directly only when
adaptive exposure is disabled; when adaptive exposure is enabled the
manual ISO only serves as the base of the adaptive analog gain (boosted
by the lighting recommendation and capped at 1600). -/
theorem manual_overrides_amended :
    (∀ (a : Bool) (b : ℚ) (t : Nat) (iso : Option Nat) (wb : Option String),
      t ≠ 0 →
        (finalAppliedControls a b (Option.some t) iso wb).exposureTime = Option.some t ∧
        (finalAppliedControls a b (Option.some t) iso wb).aeEnable = Option.some false) ∧
    (∀ (a : Bool) (b : ℚ) (et iso : Option Nat) (w : String) (g : ℚ × ℚ),
      wbGains w = Option.some g →
        (finalAppliedControls a b et iso (Option.some w)).awbEnable = Option.some false ∧
        (finalAppliedControls a b et iso (Option.some w)).colourGains = Option.some g) ∧
    (∀ (b : ℚ) (et : Option Nat) (n : Nat) (wb : Option String),
      n ≠ 0 →
        (finalAppliedControls false b et (Option.some n) wb).analogueGain
          = Option.some ((n : ℚ) / 100)) ∧
    (∀ (b : ℚ) (et : Option Nat) (n : Nat) (wb : Option String),
      n ≠ 0 →
        (finalAppliedControls true b et (Option.some n) wb).analogueGain
          = (applyAdaptiveSettings (lightingLadder b).2.2 (Option.some n)).analogueGain) := by
  refine ⟨?_, ?_, ?_, ?_⟩
  · intro a b t iso wb ht
    have htr : truthyNat (Option.some t) = true := by
      simp [truthyNat, ht]
    have hf := manualControls_fields (Option.some t) iso a wb
    constructor
    · simp only [finalAppliedControls, setControls]
      rw [hf.1, if_pos htr, ov_some]
    · simp only [finalAppliedControls, setControls]
      rw [hf.2.1, if_pos htr, ov_some]
  · intro a b et iso w g hg
    have hf := manualControls_wb_fields et iso a w g hg
    constructor
    · simp only [finalAppliedControls, setControls]
      rw [hf.1, ov_some]
    · simp only [finalAppliedControls, setControls]
      rw [hf.2, ov_some]
  · intro b et n wb hn
    have htr : truthyNat (Option.some n) = true := by
      simp [truthyNat, hn]
    have hf := (manualControls_fields et (Option.some n) false wb).2.2
    have hpy : pyOr (Option.some n) 0 = n := by
      simp [pyOr, hn]
    simp only [finalAppliedControls, setControls, Bool.false_eq_true, if_false]
    rw [hf, htr]
    simp [ov, emptyCtrl, hpy]
  · intro b et n wb hn
    have hf := (manualControls_fields et (Option.some n) true wb).2.2
    have hpy : pyOr (Option.some n) 400 = n := by
      simp [pyOr, hn]
    simp only [finalAppliedControls, setControls, if_true]
    rw [hf]
    simp only [Bool.not_true, Bool.and_false, Bool.false_eq_true, if_false, ov_none]
    rw [hpy]
    simp [emptyCtrl, ov_none_right]

/-- Witness for C2 (amended) at concrete inputs: adaptive exposure on,
very dark preview, manual exposure 5000 μs, manual ISO 800, manual
daylight white balance. -/
theorem manual_overrides_amended_witness :
    ((5000 : Nat) ≠ 0 ∧
      (finalAppliedControls true 40 (Option.some 5000) (Option.some 800)
        (Option.some "daylight")).exposureTime = Option.some 5000 ∧
      (finalAppliedControls true 40 (Option.some 5000) (Option.some 800)
        (Option.some "daylight")).aeEnable = Option.some false) ∧
    (wbGains "daylight" = Option.some (1.5, 2.5) ∧
      (finalAppliedControls true 40 (Option.some 5000) (Option.some 800)
        (Option.some "daylight")).awbEnable = Option.some false ∧
      (finalAppliedControls true 40 (Option.some 5000) (Option.some 800)
        (Option.some "daylight")).colourGains = Option.some (1.5, 2.5)) ∧
    ((800 : Nat) ≠ 0 ∧
      (finalAppliedControls false 40 Option.none (Option.some 800)
        Option.none).analogueGain = Option.some ((800 : ℚ) / 100)) ∧
    ((800 : Nat) ≠ 0 ∧
      (finalAppliedControls true 40 Option.none (Option.some 800)
        Option.none).analogueGain
        = (applyAdaptiveSettings (lightingLadder 40).2.2 (Option.some 800)).analogueGain) :=
  ⟨⟨by norm_num,
    (manual_overrides_amended.1 true 40 5000 (Option.some 800)
      (Option.some "daylight") (by norm_num)).1,
    (manual_overrides_amended.1 true 40 5000 (Option.some 800)
      (Option.some "daylight") (by norm_num)).2⟩,
   ⟨by rfl,
    (manual_overrides_amended.2.1 true 40 (Option.some 5000) (Option.some 800)
      "daylight" (1.5, 2.5) (by rfl)).1,
    (manual_overrides_amended.2.1 true 40 (Option.some 5000) (Option.some 800)
      "daylight" (1.5, 2.5) (by rfl)).2⟩,
   ⟨by norm_num,
    manual_overrides_amended.2.2.1 40 Option.none 800 Option.none (by norm_num)⟩,
   ⟨by norm_num,
    manual_overrides_amended.2.2.2 40 Option.none 800 Option.none (by norm_num)⟩⟩

/-- State of the hardware camera session: whether a `Picamera2()` handle
was acquired, whether the stream is running, and whether the handle was
released with `close()`. -/
structure Session where
  acquired : Bool
  running : Bool
  closed : Bool
deriving DecidableEq

/-- Arguments of `capture_image` in `capture_image_adaptive.py`
(lines 297-300) that steer the control flow settled here. -/
structure CaptureArgs where
  adaptiveExposure : Bool
  exposureBracketing : Bool
  exposureTime : Option Nat
  iso : Option Nat
  whiteBalance : Option String
  useJsonMetadata : Bool

/-- Environment faults and observations of one run of
`capture_image` in `capture_image_adaptive.py`: whether `Picamera2()`
itself raises, whether the capture call raises, the preview statistics
handed to the lighting analysis (`none` = the analysis raises
internally), whether the output file exists afterwards, and whether
`_embed_metadata_in_exif` fails internally. -/
structure CaptureEnv where
  initRaises : Bool
  captureRaises : Bool
  preview : Option PreviewStats
  fileCreated : Bool
  embedFails : Bool

/-- Observable outcome of one run of `capture_image` in
`capture_image_adaptive.py`: the boolean it returns, whether the
bracketing branch ran, how many `capture_file` calls completed, how many
bracket temporaries were created, whether EXIF embedding succeeded,
whether the captured image file is still present, and the final session
state. -/
structure RunOutcome where
  success : Bool
  bracketTaken : Bool
  captureCalls : Nat
  bracketFilesCreated : Nat
  metadataEmbedded : Bool
  imageKept : Bool
  session : Session
deriving DecidableEq

/-- The `finally` block of `capture_image` in `capture_image_adaptive.py`
(lines 545-551): when a handle was acquired it is stopped and closed,
secondary errors swallowed; with no handle (`self.picam2` still `None`)
nothing happens. -/
def finallyAdaptive (s : Session) : Session :=
  if s.acquired then { s with running := false, closed := true } else s

/-- One run of `capture_image` in `capture_image_adaptive.py`
(lines 297-551).  If `Picamera2()` raises (line 325) the `except` branch
returns `False` and the `finally` block finds no handle.  Otherwise the
session is configured and started; the lighting analysis (line 351)
never raises — on internal failure it yields the neutral default — and
the adaptive and manual control dictionaries are applied.  The
bracketing branch runs iff `exposure_bracketing and not exposure_time`
(line 402), completing three captures, else one capture completes; a
capture exception propagates to the `except` branch (return `False`).
The camera is stopped (line 460), metadata embedding is attempted in the
default mode when the file exists (lines 509-519) and its failure only
changes the report message; the run returns whether the output file
exists (lines 522-539), and the `finally` block stops and closes the
session on every path. -/
def runAdaptive (args : CaptureArgs) (env : CaptureEnv) : RunOutcome :=
  if env.initRaises then
    { success := false, bracketTaken := false, captureCalls := 0,
      bracketFilesCreated := 0, metadataEmbedded := false, imageKept := false,
      session := finallyAdaptive { acquired := false, running := false, closed := false } }
  else
    let started : Session := { acquired := true, running := true, closed := false }
    let lightingBrightness :=
      if args.adaptiveExposure then (analyzeLightingConditions env.preview).brightness
      else 128
    let _appliedControls :=
      finalAppliedControls args.adaptiveExposure lightingBrightness
        args.exposureTime args.iso args.whiteBalance
    let takeBracket := args.exposureBracketing && !(truthyNat args.exposureTime)
    if env.captureRaises then
      { success := false, bracketTaken := takeBracket, captureCalls := 0,
        bracketFilesCreated := 0, metadataEmbedded := false, imageKept := false,
        session := finallyAdaptive started }
    else
      let stopped : Session := { started with running := false }
      let embedded := !args.useJsonMetadata && env.fileCreated && !env.embedFails
      { success := env.fileCreated
        bracketTaken := takeBracket
        captureCalls := if takeBracket then 3 else 1
        bracketFilesCreated := if takeBracket then 3 else 0
        metadataEmbedded := embedded
        imageKept := env.fileCreated
        session := finallyAdaptive stopped }

/-- Exit code chosen by `main` from the boolean returned by
`capture_image` (`capture_image_adaptive.py` lines 625-630,
`capture_image.py` lines 94-99): 0 on `True`, 1 on `False`. -/
def exitCode (success : Bool) : Nat :=
  if success then 0 else 1

/-- Environment faults of one run of `capture_image` in
`capture_image.py`: whether `Picamera2()` raises, whether the capture
call raises, and whether the output file exists afterwards. -/
structure BasicEnv where
  initRaises : Bool
  captureRaises : Bool
  fileCreated : Bool

/-- Observable outcome of one run of `capture_image` in
`capture_image.py`. -/
structure BasicOutcome where
  success : Bool
  session : Session
deriving DecidableEq

/-- The `finally` block of `capture_image` in `capture_image.py`
(lines 80-85): under the comment saying the camera is properly closed it
only calls `picam2.stop()` — `close()` is never called anywhere in the
script, so the handle is stopped but not closed.  When initialization
raised, `picam2` is unbound and the stop call's `NameError` is swallowed
by the bare `except`. -/
def finallyBasic (s : Session) : Session :=
  if s.acquired then { s with running := false } else s

/-- One run of `capture_image` in `capture_image.py` (lines 32-85):
initialize, configure, start, capture, stop, check the file; any
exception reaches the `except` branch which returns `False`; the
`finally` block only stops the stream. -/
def runBasic (env : BasicEnv) : BasicOutcome :=
  if env.initRaises then
    { success := false
      session := finallyBasic { acquired := false, running := false, closed := false } }
  else
    let started : Session := { acquired := true, running := true, closed := false }
    if env.captureRaises then
      { success := false, session := finallyBasic started }
    else
      let stopped : Session := { started with running := false }
      { success := env.fileCreated, session := finallyBasic stopped }

/-- C7: on any exception during preview sampling or classification the
lighting classifier returns the neutral assessment — condition unknown,
brightness 128, zero dark- and bright-pixel percentages, neutral
recommended settings with iso boost 1.0 and compensation 0.0 — and the
outcome of the capture run is the same as with any successful analysis:
the run proceeds rather than aborting. -/
theorem lighting_failure_neutral_default :
    analyzeLightingConditions Option.none =
      { condition := "unknown", description := "Auto", brightness := 128,
        darkPixelsPercent := 0, brightPixelsPercent := 0,
        recommended := { exposureMode := "normal", isoBoost := 1.0,
                         brightnessCompensation := 0.0 } } ∧
    (∀ (args : CaptureArgs) (env : CaptureEnv),
      (runAdaptive args { env with preview := Option.none }).success
        = (runAdaptive args env).success ∧
      exitCode (runAdaptive args { env with preview := Option.none }).success
        = exitCode (runAdaptive args env).success) := by
  refine ⟨rfl, fun args env => ?_⟩
  have hs : (runAdaptive args { env with preview := Option.none }).success
      = (runAdaptive args env).success := by
    cases hin : env.initRaises <;> cases hcap : env.captureRaises <;>
      simp [runAdaptive, hin, hcap]
  exact ⟨hs, by rw [hs]⟩

/-- C8: when the run reaches the metadata step with the image file
present and EXIF embedding fails, the embedding is reported as failed
but the image is kept and the run still returns success, so the process
exits with code 0. -/
theorem embed_failure_graceful :
    ∀ (args : CaptureArgs) (env : CaptureEnv),
      env.initRaises = false → env.captureRaises = false →
      env.fileCreated = true → args.useJsonMetadata = false →
      env.embedFails = true →
      (runAdaptive args env).metadataEmbedded = false ∧
      (runAdaptive args env).imageKept = true ∧
      (runAdaptive args env).success = true ∧
      exitCode (runAdaptive args env).success = 0 := by
  intro args env h1 h2 h3 h4 h5
  simp [runAdaptive, exitCode, h1, h2, h3, h4, h5]

/-- Witness for C8: a concrete adaptive run whose EXIF embedding fails
still keeps the image and exits 0. -/
theorem embed_failure_graceful_witness :
    ((⟨false, false, Option.none, true, true⟩ : CaptureEnv).initRaises = false) ∧
    ((runAdaptive ⟨true, false, Option.none, Option.none, Option.none, false⟩
        ⟨false, false, Option.none, true, true⟩).metadataEmbedded = false ∧
      (runAdaptive ⟨true, false, Option.none, Option.none, Option.none, false⟩
        ⟨false, false, Option.none, true, true⟩).imageKept = true ∧
      (runAdaptive ⟨true, false, Option.none, Option.none, Option.none, false⟩
        ⟨false, false, Option.none, true, true⟩).success = true ∧
      exitCode (runAdaptive ⟨true, false, Option.none, Option.none, Option.none, false⟩
        ⟨false, false, Option.none, true, true⟩).success = 0) :=
  ⟨rfl,
   embed_failure_graceful
     ⟨true, false, Option.none, Option.none, Option.none, false⟩
     ⟨false, false, Option.none, true, true⟩ rfl rfl rfl rfl rfl⟩

/-- C9: in `capture_image_adaptive.py` every exit path ends with the
stream stopped and — whenever a handle was acquired — the handle closed,
and a run failing at capture exits with code 1; but in
`capture_image.py` the unconditional cleanup only calls `stop()` under
its comment about closing the camera: on a simulated hardware failure
during capture the session is stopped yet never `close()`d (the claim
and the code's own comment say closed), while the exit code is 1 as
claimed. -/
theorem session_cleanup_divergence :
    (∀ (args : CaptureArgs) (env : CaptureEnv),
      (runAdaptive args env).session.running = false ∧
      (runAdaptive args env).session.closed = !env.initRaises) ∧
    (∀ (args : CaptureArgs) (env : CaptureEnv),
      exitCode (runAdaptive args { env with captureRaises := true }).success = 1) ∧
    (runBasic { initRaises := false, captureRaises := true, fileCreated := false }).session
      = { acquired := true, running := false, closed := false } ∧
    exitCode (runBasic { initRaises := false, captureRaises := true, fileCreated := false }).success = 1 := by
  refine ⟨fun args env => ?_, fun args env => ?_, rfl, rfl⟩
  · cases hin : env.initRaises <;> cases hcap : env.captureRaises <;>
      simp [runAdaptive, finallyAdaptive, hin, hcap]
  · cases hin : env.initRaises <;>
      simp [runAdaptive, exitCode, hin]

/-- Counterexample to C10 as stated: an exposure time of 0 μs is a
supplied manual exposure time, but 0 is falsy in Python, so
`exposure_bracketing and not exposure_time` (line 402) is still true:
the bracketing branch runs, three captures are made and three bracket
temporaries are created. -/
theorem zero_exposure_bracketing_counterexample :
    (runAdaptive
      ⟨true, true, Option.some 0, Option.none, Option.none, false⟩
      ⟨false, false, Option.none, true, false⟩).bracketTaken = true ∧
    (runAdaptive
      ⟨true, true, Option.some 0, Option.none, Option.none, false⟩
      ⟨false, false, Option.none, true, false⟩).captureCalls = 3 ∧
    (runAdaptive
      ⟨true, true, Option.some 0, Option.none, Option.none, false⟩
      ⟨false, false, Option.none, true, false⟩).bracketFilesCreated = 3 :=
  ⟨rfl, rfl, rfl⟩

/-- C10 (amended): in every invocation supplying a nonzero manual
exposure time, the bracketing branch is never taken even when the
bracketing flag is true: when the run is not aborted by an exception
exactly one capture completes and no bracket candidate files are
created. -/
theorem manual_exposure_skips_bracketing :
    ∀ (args : CaptureArgs) (env : CaptureEnv) (t : Nat),
      args.exposureTime = Option.some t → t ≠ 0 →
      env.initRaises = false → env.captureRaises = false →
      (runAdaptive args env).bracketTaken = false ∧
      (runAdaptive args env).captureCalls = 1 ∧
      (runAdaptive args env).bracketFilesCreated = 0 := by
  intro args env t het ht h1 h2
  have htr : truthyNat args.exposureTime = true := by
    simp [het, truthyNat, ht]
  simp [runAdaptive, h1, h2, htr]

/-- Witness for C10 (amended): a run with manual exposure 5000 μs and
the bracketing flag set makes one capture and no bracket files. -/
theorem manual_exposure_skips_bracketing_witness :
    ((⟨true, true, Option.some 5000, Option.none, Option.none, false⟩ :
        CaptureArgs).exposureTime = Option.some 5000) ∧
    ((5000 : Nat) ≠ 0) ∧
    ((runAdaptive ⟨true, true, Option.some 5000, Option.none, Option.none, false⟩
        ⟨false, false, Option.none, true, false⟩).bracketTaken = false ∧
      (runAdaptive ⟨true, true, Option.some 5000, Option.none, Option.none, false⟩
        ⟨false, false, Option.none, true, false⟩).captureCalls = 1 ∧
      (runAdaptive ⟨true, true, Option.some 5000, Option.none, Option.none, false⟩
        ⟨false, false, Option.none, true, false⟩).bracketFilesCreated = 0) :=
  ⟨rfl, by norm_num,
   manual_exposure_skips_bracketing
     ⟨true, true, Option.some 5000, Option.none, Option.none, false⟩
     ⟨false, false, Option.none, true, false⟩ 5000 rfl (by norm_num) rfl rfl⟩

end FastTrack
